import Mathlib

/-!
Shallow embedding of `ampligraph/datasets/sqlite_adapter.py` (class
`SQLiteAdapter`), the triple-store adapter of the AmpliGraph repository,
together with theorems settling the frozen claims about it.

Modelling conventions:
* A stored row of `triples_table` is `Row` (three integer columns plus the
  `dataset_type` text column); the table itself is a `List Row` in insertion
  order (the table is append-only and the executed queries carry no ORDER BY
  clause, see `indexClause`).
* Backend interaction is made explicit: the outcome of handing a statement to
  sqlite is a parameter (`Except String rows` for the executed statement, an
  optional failure point for `executemany`), and the Python-level effects
  (what the method returns, whether it commits, what exception escapes) are
  the function results.
* Python exceptions escaping a method are `Except.error` / an `Option`
  error component; exceptions caught inside a method do not appear in the
  result, exactly as the source swallows them.
-/

namespace SQLiteAdapter

/-- Errors that escape the adapter methods to the caller.  `keyError` models
the `KeyError` raised by `str.format` on the assert-message template of
`_get_batch` (its braces are backslash-escaped, which `str.format` still
parses as a named replacement field); `attributeError n` models Python's
`AttributeError` for a missing attribute `n`; `valueError` models the
`raise ValueError` branch of `get_data_size`. -/
inductive AdapterError where
  | keyError
  | attributeError (name : String)
  | valueError
deriving DecidableEq, Repr

/-- One row of `triples_table`: columns subject, predicate, object (integers)
and `dataset_type` (text), as created by `_get_db_schema`. -/
structure Row where
  subject : Nat
  predicate : Nat
  object : Nat
  dataset_type : String
deriving DecidableEq, Repr

/-- One input triple (subject, predicate, object), the element shape of the
`(N,3)` arrays handed to the complementary-entity queries. -/
structure Triple where
  subject : Nat
  predicate : Nat
  object : Nat
deriving DecidableEq, Repr

/-- `DEFAULT_CHUNKSIZE` from the module top level. -/
def DEFAULT_CHUNKSIZE : Nat := 30000

/-- The attributes of the adapter that `__init__`'s chunk-size branch can
assign (only the one relevant to claim C10 is modelled). -/
structure AdapterConfig where
  chunk_size : Nat
deriving DecidableEq, Repr

/-- Embeds the `chunk_size` handling of `SQLiteAdapter.__init__`.  A `some c`
argument models an explicit integer argument (and the Python default binds
`some DEFAULT_CHUNKSIZE` when the argument is omitted); `none` models passing
`chunk_size=None` explicitly.  In the `None` branch the source builds the
status message with `self.__name__()`; instances of the class have no
`__name__` attribute (it is not a class method and instance lookup does not
reach the metaclass), so `AttributeError` is raised before `self.chunk_size`
is ever assigned — hence the error result carries no `AdapterConfig`. -/
def sqlite_adapter_init (chunkSizeArg : Option Nat) : Except AdapterError AdapterConfig :=
  match chunkSizeArg with
  | none => Except.error (AdapterError.attributeError "__name__")
  | some c => Except.ok { chunk_size := c }

/-- Effects of `SQLiteAdapter.__exit__` on the open connection. -/
structure ExitEffect where
  committed : Bool
  rolledBack : Bool
  closed : Bool
deriving DecidableEq, Repr

/-- Embeds `SQLiteAdapter.__exit__`.  `exceptionPending = false` models a
normal exit (`tb is None`): the source commits and closes.  `exceptionPending
= true` models an exception propagating out of the `with` block: the `else`
branch only calls `self.connection.rollback()` — there is no
`self.connection.close()` on this path. -/
def sqlite_exit (exceptionPending : Bool) : ExitEffect :=
  if exceptionPending then { committed := false, rolledBack := true, closed := false }
  else { committed := true, rolledBack := false, closed := true }

/-- What `_execute_query` produces: the value the method returns (its
`output` variable), whether `connection.commit()` ran, and the error that
escapes to the caller (always `none`: the `except Error` clause prints the
message and falls through to `return output`). -/
structure ExecResult where
  output : Option (List (List Int))
  committed : Bool
  raised : Option String
deriving DecidableEq, Repr

/-- Embeds `_execute_query`.  The parameter is the backend's outcome for the
statement: `Except.ok rows` when `cursor.execute` + `fetchall` succeed with
result set `rows`, `Except.error e` when the backend rejects the statement
with `sqlite3.Error` message `e`.  On success the rows are fetched and the
connection committed; on failure the exception is caught, printed, and the
method returns the sentinel `output = None` — nothing is raised. -/
def execute_query (backend : Except String (List (List Int))) : ExecResult :=
  match backend with
  | Except.ok rows => { output := some rows, committed := true, raised := none }
  | Except.error _ => { output := none, committed := false, raised := none }

/-- Embeds `get_data_size`.  The source builds `SELECT count(*) from {table}
{condition};` and hands it to `_execute_query`; the parameter here is that
statement's backend outcome (a missing table and a malformed condition are
both backend rejections, with different messages; a successful count query
yields a single one-element row `[[n]]`).  When `_execute_query` swallowed a
failure, `count` is `None` and the method prints a notice and returns `None`;
when `count` is a list whose head is a tuple, `count[0][0]` is returned; the
remaining defensive branch raises `ValueError`. -/
def get_data_size (countQueryOutcome : Except String (List (List Int))) :
    Except AdapterError (Option Int) :=
  match (execute_query countQueryOutcome).output with
  | none => Except.ok none
  | some [] => Except.error AdapterError.valueError
  | some (row :: _) => Except.ok (some (row.headD 0))

/-- State of the sqlite connection during one `executemany` call: the rows
already committed (visible to any later query) and the rows written inside
the still-open transaction. -/
structure TxDB where
  committed : List Row
  pending : List Row

/-- `connection.commit()`: the pending rows become durable. -/
def commitTx (t : TxDB) : List Row := t.committed ++ t.pending

/-- `connection.rollback()`: the pending rows are discarded. -/
def rollbackTx (t : TxDB) : List Row := t.committed

/-- Embeds `_insert_values_to_a_table` for a chunk of well-shaped rows.
`failAt = none`: `cursor.executemany` succeeds and the chunk is committed.
`failAt = some k`: `executemany` raises `sqlite3.Error` after writing `k`
rows into the open transaction; the handler prints the error and calls
`connection.rollback()`, and the method returns normally — the error
component of the result is the exception escaping to the caller, which is
always `none`.  The first component is the table visible after the call. -/
def insert_values_to_a_table (db chunk : List Row) (failAt : Option Nat) :
    List Row × Option AdapterError :=
  match failAt with
  | none => (commitTx { committed := db, pending := chunk }, none)
  | some k => (rollbackTx { committed := db, pending := chunk.take k }, none)

/-- Embeds `_get_complementary_objects`: `select distinct object from
triples_table where subject in (batch subjects) and predicate in (batch
predicates)`.  Note the two `IN` filters are independent (cross filter), not
a filter on (subject, predicate) pairs of the batch. -/
def get_complementary_objects (db : List Row) (batch : List Triple) : List Nat :=
  ((db.filter (fun r =>
      decide (r.subject ∈ batch.map Triple.subject ∧
              r.predicate ∈ batch.map Triple.predicate))).map Row.object).dedup

/-- Embeds `_get_complementary_subjects`: `select distinct subject from
triples_table where predicate in (batch predicates) and object in (batch
objects)`. -/
def get_complementary_subjects (db : List Row) (batch : List Triple) : List Nat :=
  ((db.filter (fun r =>
      decide (r.predicate ∈ batch.map Triple.predicate ∧
              r.object ∈ batch.map Triple.object))).map Row.subject).dedup

/-- Modelled from the claim wording of C5 (for refinement comparison only):
the distinct objects of table rows whose (subject, predicate) pair equals the
(subject, predicate) of SOME batch triple. -/
def claimed_complementary_objects (db : List Row) (batch : List Triple) : List Nat :=
  ((db.filter (fun r =>
      decide (∃ t ∈ batch, t.subject = r.subject ∧ t.predicate = r.predicate))).map
    Row.object).dedup

/-- Embeds the `index_by` handling at the top of `_get_batch`.  In the source
any non-empty `index_by` first builds the assert message with
`str.format` applied to a template that contains backslash-escaped braces;
`str.format` does not treat a backslash as an escape, parses the brace group
as a named replacement field, and raises `KeyError` — before the assert is
evaluated and before any `ORDER BY` clause can be assigned.  So the returned
index clause is `""` when `index_by` is empty and a `KeyError` otherwise,
for either value of `random`. -/
def indexClause (indexBy : String) (random : Bool) : Except AdapterError String :=
  if indexBy = "" then Except.ok ""
  else Except.error AdapterError.keyError

/-- The `query` variable of `_get_batch`: either still the literal template
(with its format placeholders) or the result of a `str.format` call. -/
inductive BatchQuery where
  | template
  | formatted (dtype : String) (index : String) (offset : Nat) (ct : Nat)
deriving DecidableEq, Repr

/-- `query.format(dataset_type, index, i * batch_size, batch_size)`.
Formatting the template substitutes all four placeholders; formatting an
already-formatted query is the identity, because the formatted string
contains no remaining replacement fields (the dataset-type labels and index
clauses occurring here contain no braces), and `str.format` ignores unused
arguments. -/
def formatQuery : BatchQuery → String → String → Nat → Nat → BatchQuery
  | BatchQuery.template, d, ix, off, c => BatchQuery.formatted d ix off c
  | BatchQuery.formatted d ix off c, _, _, _, _ => BatchQuery.formatted d ix off c

/-- Insertion step for the ORDER BY model. -/
def insertSorted (le : Row → Row → Bool) (r : Row) : List Row → List Row
  | [] => [r]
  | x :: xs => if le r x then r :: x :: xs else x :: insertSorted le r xs

/-- Stable insertion sort, the model of an ORDER BY clause. -/
def sortRows (le : Row → Row → Bool) : List Row → List Row
  | [] => []
  | x :: xs => insertSorted le x (sortRows le xs)

/-- Comparator for `ORDER BY subject`. -/
def bySubject (a b : Row) : Bool := Nat.ble a.subject b.subject

/-- Comparator for `ORDER BY object`. -/
def byObject (a b : Row) : Bool := Nat.ble a.object b.object

/-- Comparator for `ORDER BY subject, object`. -/
def bySubjectObject (a b : Row) : Bool :=
  if a.subject = b.subject then Nat.ble a.object b.object else Nat.ble a.subject b.subject

/-- Semantics of the index clause inside a formatted query.  (In the source
these ORDER BY branches are unreachable — `indexClause` shows every
non-empty `index_by` raises `KeyError` first — but they are kept for
fidelity to the query template.) -/
def applyIndex (ix : String) (rows : List Row) : List Row :=
  if ix = "ORDER BY subject" then sortRows bySubject rows
  else if ix = "ORDER BY object" then sortRows byObject rows
  else if ix = "ORDER BY subject, object" then sortRows bySubjectObject rows
  else rows

/-- `where dataset_type = dtype`: the rows of the partition, in table order. -/
def partitionRows (db : List Row) (dtype : String) : List Row :=
  db.filter (fun r => decide (r.dataset_type = dtype))

/-- `LIMIT offset, ct` applied after WHERE and ORDER BY. -/
def limitRows (rows : List Row) (offset ct : Nat) : List Row :=
  (rows.drop offset).take ct

/-- Executes the (non-random) batch query held in the `query` variable.  The
template itself is never executed by the source (it is formatted before the
first execution); that branch is dead and returns no rows. -/
def runBatchQuery (db : List Row) : BatchQuery → List Row
  | BatchQuery.template => []
  | BatchQuery.formatted d ix off c => limitRows (applyIndex ix (partitionRows db d)) off c

/-- The `for i in range(self.batches_count)` loop of `_get_batch`, collecting
the yielded batches of a full iteration.  Faithful to the source, the loop
variable `query` is REASSIGNED to its formatted value
(`query = query.format(...)`), so from the second iteration on the format
call is applied to an already-formatted string and leaves it unchanged: the
non-random branch re-executes the offset-0 query on every iteration.  The
random branch rebuilds its query from a fresh string literal each iteration
(`order by random() limit i*batch_size, batch_size`); its per-query `random()`
ordering is modelled by the ordering parameter `σ`, one ordering per page. -/
def batchLoop (db : List Row) (dtype ix : String) (B : Nat) (random : Bool)
    (σ : Nat → List Row → List Row) : Nat → Nat → BatchQuery → List (List Row)
  | 0, _, _ => []
  | n + 1, i, q =>
    (if random then limitRows (σ i (partitionRows db dtype)) (i * B) B
     else runBatchQuery db (formatQuery q dtype ix (i * B) B))
      :: batchLoop db dtype ix B random σ n (i + 1) (formatQuery q dtype ix (i * B) B)

/-- Embeds a full iteration of the `_get_batch` generator on a fresh adapter.
In source order: `batches_count` is computed once as
`int(size / batch_size)` from `get_data_size` over the partition (floor
division of non-negative integers, i.e. `Nat` division); then the `index_by`
block runs (raising `KeyError` for any non-empty `index_by`, see
`indexClause`); then the loop runs.  With `use_filter` set, the first loop
iteration evaluates `self.get_complementary_entities(out)` — the class only
defines `_get_complementary_entities`, so attribute lookup raises
`AttributeError` and the generator dies before its first yield; with
`batches_count = 0` the loop body never runs and the generator is exhausted
normally.  The result is the list of yielded batches, or the exception that
escaped. -/
def get_batch (db : List Row) (dtype : String) (batchSize : Nat)
    (random useFilter : Bool) (indexBy : String) (σ : Nat → List Row → List Row) :
    Except AdapterError (List (List Row)) :=
  let size := (partitionRows db dtype).length
  let batches_count := size / batchSize
  match indexClause indexBy random with
  | Except.error e => Except.error e
  | Except.ok index =>
    if useFilter && Nat.ble 1 batches_count then
      Except.error (AdapterError.attributeError "get_complementary_entities")
    else
      Except.ok (batchLoop db dtype index batchSize random σ batches_count 0 BatchQuery.template)

/-- A query (the `query` loop variable) whose WHERE clause, if already
formatted, filters on partition `d`. -/
def queryForType (d : String) : BatchQuery → Prop
  | BatchQuery.template => True
  | BatchQuery.formatted d2 _ _ _ => d2 = d

/-- Concrete rows used by the claim evaluations. -/
def row0 : Row := { subject := 0, predicate := 0, object := 0, dataset_type := "train" }

/-- Second concrete train row. -/
def row1 : Row := { subject := 1, predicate := 1, object := 1, dataset_type := "train" }

/-- Concrete test-partition row. -/
def rowT : Row := { subject := 5, predicate := 5, object := 5, dataset_type := "test" }

/-- Table of the C5 counterexample: a single row (1, 20, 99). -/
def exDb5 : List Row := [{ subject := 1, predicate := 20, object := 99, dataset_type := "train" }]

/-- Batch of the C5 counterexample: (1,10,5) and (3,20,6); no batch triple
has the (subject, predicate) pair (1, 20). -/
def exBatch5 : List Triple :=
  [{ subject := 1, predicate := 10, object := 5 },
   { subject := 3, predicate := 20, object := 6 }]

/-- Table of the spec's concrete complementary-entity example:
(1,10,2), (3,10,2), (1,10,4). -/
def exTable : List Row :=
  [{ subject := 1, predicate := 10, object := 2, dataset_type := "train" },
   { subject := 3, predicate := 10, object := 2, dataset_type := "train" },
   { subject := 1, predicate := 10, object := 4, dataset_type := "train" }]

/-- Batch of the spec's concrete example: the single triple (1,10,2). -/
def exBatch : List Triple := [{ subject := 1, predicate := 10, object := 2 }]

/-- An element of `insertSorted le r l` is `r` or an element of `l`. -/
theorem mem_insertSorted (le : Row → Row → Bool) (r a : Row) :
    ∀ l : List Row, a ∈ insertSorted le r l → a = r ∨ a ∈ l := by
  intro l
  induction l with
  | nil =>
    intro h
    simp [insertSorted] at h
    exact Or.inl h
  | cons x xs ih =>
    intro h
    unfold insertSorted at h
    split at h
    · rcases List.mem_cons.mp h with h1 | h2
      · exact Or.inl h1
      · exact Or.inr h2
    · rcases List.mem_cons.mp h with h1 | h2
      · exact Or.inr (h1 ▸ List.mem_cons_self x xs)
      · rcases ih h2 with h3 | h4
        · exact Or.inl h3
        · exact Or.inr (List.mem_cons_of_mem x h4)

/-- Sorting does not introduce rows. -/
theorem mem_sortRows (le : Row → Row → Bool) (r : Row) :
    ∀ l : List Row, r ∈ sortRows le l → r ∈ l := by
  intro l
  induction l with
  | nil => intro h; simp [sortRows] at h
  | cons x xs ih =>
    intro h
    unfold sortRows at h
    rcases mem_insertSorted le x r (sortRows le xs) h with h1 | h2
    · exact h1 ▸ List.mem_cons_self x xs
    · exact List.mem_cons_of_mem x (ih h2)

/-- An ORDER BY clause does not introduce rows. -/
theorem mem_applyIndex (ix : String) (l : List Row) (r : Row)
    (h : r ∈ applyIndex ix l) : r ∈ l := by
  unfold applyIndex at h
  split at h
  · exact mem_sortRows _ _ _ h
  · split at h
    · exact mem_sortRows _ _ _ h
    · split at h
      · exact mem_sortRows _ _ _ h
      · exact h

/-- A LIMIT clause does not introduce rows. -/
theorem mem_limitRows (l : List Row) (off c : Nat) (r : Row)
    (h : r ∈ limitRows l off c) : r ∈ l := by
  unfold limitRows at h
  exact (List.drop_sublist _ _).subset ((List.take_sublist _ _).subset h)

/-- A row of the partition query result is a table row with the requested
dataset type. -/
theorem mem_partitionRows (db : List Row) (d : String) (r : Row)
    (h : r ∈ partitionRows db d) : r ∈ db ∧ r.dataset_type = d := by
  unfold partitionRows at h
  have h2 := List.mem_filter.mp h
  exact ⟨h2.1, of_decide_eq_true h2.2⟩

/-- `formatQuery` applied with dataset type `d` preserves `queryForType d`. -/
theorem formatQuery_type (d ix : String) (off c : Nat) (q : BatchQuery)
    (hq : queryForType d q) : queryForType d (formatQuery q d ix off c) := by
  cases q with
  | template => rfl
  | formatted d2 ix2 off2 c2 => exact hq

/-- Every row produced by a batch query whose WHERE clause names `d` has
dataset type `d`. -/
theorem mem_runBatchQuery (db : List Row) (d : String) (q : BatchQuery)
    (hq : queryForType d q) (r : Row) (hr : r ∈ runBatchQuery db q) :
    r.dataset_type = d := by
  cases q with
  | template => simp [runBatchQuery] at hr
  | formatted d2 ix off c =>
    have hd : d2 = d := hq
    have h1 : r ∈ applyIndex ix (partitionRows db d2) := mem_limitRows _ _ _ _ hr
    have h2 : r ∈ partitionRows db d2 := mem_applyIndex _ _ _ h1
    exact hd ▸ (mem_partitionRows _ _ _ h2).2

/-- Every row of every batch produced by the `_get_batch` loop for dataset
type `d` has dataset type `d`, provided the random orderings `σ` only
reorder (never introduce) rows. -/
theorem mem_batchLoop (db : List Row) (d ix : String) (B : Nat) (random : Bool)
    (σ : Nat → List Row → List Row)
    (hσ : ∀ i l r, r ∈ σ i l → r ∈ l) :
    ∀ (remaining i : Nat) (q : BatchQuery), queryForType d q →
      ∀ b ∈ batchLoop db d ix B random σ remaining i q, ∀ r ∈ b, r.dataset_type = d := by
  intro remaining
  induction remaining with
  | zero =>
    intro i q hq b hb
    simp [batchLoop] at hb
  | succ n ih =>
    intro i q hq b hb r hr
    rw [batchLoop] at hb
    rcases List.mem_cons.mp hb with hb1 | hb2
    · subst hb1
      by_cases hrand : random = true
      · rw [hrand] at hr
        simp only [if_pos rfl] at hr
        have h1 : r ∈ σ i (partitionRows db d) := mem_limitRows _ _ _ _ hr
        exact (mem_partitionRows _ _ _ (hσ i _ r h1)).2
      · have hrand2 : random = false := Bool.eq_false_iff.mpr hrand
        rw [hrand2] at hr
        simp only [Bool.false_eq_true, if_false] at hr
        exact mem_runBatchQuery db d _ (formatQuery_type d ix (i * B) B q hq) r hr
    · exact ih (i + 1) (formatQuery q d ix (i * B) B)
        (formatQuery_type d ix (i * B) B q hq) b hb2 r hr

/-- Claim C1 (code bug): evaluated on a train partition with two distinct
rows and batch size 1, a full non-random iteration yields
`floor(2/1) = 2` batches, but both are the offset-0 page `[row0]`: the
first-page row is repeated and `row1` is never yielded, because the loop
reassigns its `query` variable to the formatted offset-0 query and
re-formatting that string is a no-op.  The spec's pagination-completeness
property (each row appears once, pages at offsets `i * B`) is the evident
intent of the `i * batch_size` offset computation and of the docstring
("returns the next batch of data"). -/
theorem get_batch_repeats_first_page :
    get_batch [row0, row1] "train" 1 false false "" (fun _ l => l)
      = Except.ok [[row0], [row0]] := rfl

/-- Claim C2 (counterexample): with committed table `[row0]` and chunk
`[row1]`, an insert that fails mid-chunk rolls the table back to `[row0]`,
but the error component of the result is `none` — the `except` handler
prints and swallows the failure, so it is NOT reported to the caller as an
error, contradicting the claim as stated. -/
theorem insert_chunk_error_not_reported :
    (insert_values_to_a_table [row0] [row1] (some 1)).snd = none
    ∧ (insert_values_to_a_table [row0] [row1] (some 1)).fst = [row0] :=
  ⟨rfl, rfl⟩

/-- Claim C2 (amended): a failed chunk insert is rolled back, so the visible
table is either unchanged or extended by the whole chunk (never a partial
subset), but the failure is logged and swallowed: no error reaches the
caller on any path. -/
theorem insert_chunk_atomic_silent (db chunk : List Row) :
    (∀ k, insert_values_to_a_table db chunk (some k) = (db, none))
    ∧ insert_values_to_a_table db chunk none = (db ++ chunk, none)
    ∧ ∀ failAt, (insert_values_to_a_table db chunk failAt).fst = db
        ∨ (insert_values_to_a_table db chunk failAt).fst = db ++ chunk := by
  refine ⟨fun k => rfl, rfl, fun failAt => ?_⟩
  cases failAt with
  | none => exact Or.inr rfl
  | some k => exact Or.inl rfl

/-- Claim C3 (counterexample): on a backend-rejected statement,
`_execute_query` returns the sentinel `None` as its output, performs no
commit, and raises nothing — the failure is logged and swallowed with a
sentinel return, exactly what the claim forbids. -/
theorem execute_query_error_swallowed :
    execute_query (Except.error "near WHERE: syntax error")
      = { output := none, committed := false, raised := none } := rfl

/-- Claim C3 (amended): on success the statement's rows are returned and the
change committed; on backend rejection the error is caught and printed and
the method returns the sentinel `None` with no error propagated to the
caller. -/
theorem execute_query_commit_and_sentinel :
    (∀ rows, execute_query (Except.ok rows)
        = { output := some rows, committed := true, raised := none })
    ∧ ∀ e, execute_query (Except.error e)
        = { output := none, committed := false, raised := none } :=
  ⟨fun _ => rfl, fun _ => rfl⟩

/-- Claim C4 (code bug): on a normal exit `__exit__` commits and closes, but
on an abnormal exit (exception propagating out of the scope) it only rolls
back — `connection.close()` is never called on the error path, although the
method's own docstring says it closes the connection. -/
theorem exit_handle_leak :
    sqlite_exit true = { committed := false, rolledBack := true, closed := false }
    ∧ sqlite_exit false = { committed := true, rolledBack := false, closed := true } :=
  ⟨rfl, rfl⟩

/-- Claim C5 (counterexample): for table `[(1, 20, 99)]` and batch
`[(1,10,5), (3,20,6)]` no batch triple has the (subject, predicate) pair
(1, 20), so under the claim's wording no object is complementary; the code's
independent `IN` filters (subject in {1,3}, predicate in {10,20}) match the
row and return object 99. -/
theorem complementary_objects_cross_product :
    get_complementary_objects exDb5 exBatch5 = [99]
    ∧ claimed_complementary_objects exDb5 exBatch5 = [] :=
  ⟨rfl, rfl⟩

/-- Claim C5 (amended): the resolver returns the distinct objects of rows
whose subject appears among the batch's subjects AND whose predicate appears
among the batch's predicates (two independent memberships, not a pairwise
(subject, predicate) match), and dually for subjects; for a single-triple
batch this coincides with the claimed pairwise semantics, and on the spec's
concrete example it returns objects {2, 4} and subjects {1, 3}. -/
theorem complementary_entities_cross_semantics :
    (∀ db batch o, o ∈ get_complementary_objects db batch ↔
      ∃ r ∈ db, (r.subject ∈ batch.map Triple.subject
        ∧ r.predicate ∈ batch.map Triple.predicate) ∧ r.object = o)
    ∧ (∀ db batch s, s ∈ get_complementary_subjects db batch ↔
      ∃ r ∈ db, (r.predicate ∈ batch.map Triple.predicate
        ∧ r.object ∈ batch.map Triple.object) ∧ r.subject = s)
    ∧ (∀ db t, get_complementary_objects db [t] = claimed_complementary_objects db [t])
    ∧ (∀ x, x ∈ get_complementary_objects exTable exBatch ↔ (x = 2 ∨ x = 4))
    ∧ (∀ x, x ∈ get_complementary_subjects exTable exBatch ↔ (x = 1 ∨ x = 3)) := by
  refine ⟨?_, ?_, ?_, ?_, ?_⟩
  · intro db batch o
    simp only [get_complementary_objects, List.mem_dedup, List.mem_map, List.mem_filter,
      decide_eq_true_eq]
    tauto
  · intro db batch s
    simp only [get_complementary_subjects, List.mem_dedup, List.mem_map, List.mem_filter,
      decide_eq_true_eq]
    tauto
  · intro db t
    unfold get_complementary_objects claimed_complementary_objects
    have hf : ∀ r : Row,
        (decide (r.subject ∈ [t].map Triple.subject ∧ r.predicate ∈ [t].map Triple.predicate))
        = (decide (∃ u ∈ [t], u.subject = r.subject ∧ u.predicate = r.predicate)) := by
      intro r
      apply decide_eq_decide.mpr
      simp [eq_comm]
    rw [List.filter_congr (fun r _ => hf r)]
  · intro x
    have h24 : get_complementary_objects exTable exBatch = [2, 4] := rfl
    rw [h24]
    simp
  · intro x
    have h13 : get_complementary_subjects exTable exBatch = [1, 3] := rfl
    rw [h13]
    simp

/-- Claim C6 (confirmed): a row whose dataset type is `d1` is never
contained in any batch yielded by an iterator built for a different dataset
type `d2`, for every table, batch size, randomness flag, filter flag,
index request and (row-preserving) random ordering: every executed query
carries the `where dataset_type = d2` clause. -/
theorem partition_isolation (db : List Row) (d1 d2 : String) (B : Nat)
    (random useFilter : Bool) (ib : String) (σ : Nat → List Row → List Row)
    (hσ : ∀ i l r, r ∈ σ i l → r ∈ l)
    (hne : d1 ≠ d2) (r : Row) (hr : r.dataset_type = d1)
    (batches : List (List Row))
    (h : get_batch db d2 B random useFilter ib σ = Except.ok batches)
    (b : List Row) (hb : b ∈ batches) : r ∉ b := by
  intro hrb
  unfold get_batch at h
  rcases hix : indexClause ib random with e | index
  · rw [hix] at h
    cases h
  · rw [hix] at h
    simp only at h
    split at h
    · cases h
    · have hbatches : batches
          = batchLoop db d2 index B random σ
              ((partitionRows db d2).length / B) 0 BatchQuery.template :=
        (Except.ok.injEq _ _).mp h.symm
      have hd2 : r.dataset_type = d2 :=
        mem_batchLoop db d2 index B random σ hσ _ 0 BatchQuery.template trivial
          b (hbatches ▸ hb) r hrb
      exact hne (hr ▸ hd2 ▸ rfl)

/-- Witness for claim C6 at a concrete instance: table with one train row
and one test row, iterating the test partition with batch size 1 yields
exactly the batch `[rowT]`, and the train row is not in it. -/
theorem partition_isolation_witness :
    (∀ (i : Nat) (l : List Row) (r : Row), r ∈ (fun (_ : Nat) (x : List Row) => x) i l → r ∈ l)
    ∧ ("train" : String) ≠ "test"
    ∧ row0.dataset_type = "train"
    ∧ get_batch [row0, rowT] "test" 1 false false "" (fun _ l => l) = Except.ok [[rowT]]
    ∧ [rowT] ∈ [[rowT]]
    ∧ row0 ∉ [rowT] :=
  ⟨fun _ _ _ h => h, by decide, rfl, rfl, List.mem_singleton.mpr rfl,
    partition_isolation [row0, rowT] "train" "test" 1 false false ""
      (fun _ l => l) (fun _ _ _ h => h) (by decide) row0 rfl [[rowT]] rfl
      [rowT] (List.mem_singleton.mpr rfl)⟩

/-- Claim C7 (code bug): requesting `use_filter=True` on a partition holding
at least `batch_size` rows makes the generator raise `AttributeError` before
its first yield: it calls `self.get_complementary_entities`, but the class
only defines `_get_complementary_entities`.  The documented behavior
(batches paired with the participating entities) is never produced. -/
theorem use_filter_attribute_error :
    get_batch [row0] "train" 1 false true "" (fun _ l => l)
      = Except.error (AdapterError.attributeError "get_complementary_entities") := rfl

/-- Claim C8 (code bug): any non-empty `index_by` raises `KeyError` while
the assert message is being built (backslash-escaped braces are still parsed
by `str.format` as a named replacement field), for either value of `random`;
in particular `index_by = "s"` with `random = False`, which the claim says
is accepted with `ORDER BY subject`, fails, and `index_by = "s"` with
`random = True`, which the claim says fails with `InvalidConfiguration`,
fails with `KeyError` instead — the assert is never reached. -/
theorem index_by_key_error :
    indexClause "s" false = Except.error AdapterError.keyError
    ∧ indexClause "s" true = Except.error AdapterError.keyError
    ∧ get_batch [row0] "train" 1 false false "s" (fun _ l => l)
        = Except.error AdapterError.keyError
    ∧ get_batch [row0] "train" 1 true false "s" (fun _ l => l)
        = Except.error AdapterError.keyError :=
  ⟨rfl, rfl, rfl, rfl⟩

/-- Claim C9 (counterexample): a malformed condition and a missing table
both make the count statement a backend rejection, which `_execute_query`
swallows; `get_data_size` then returns the sentinel `None` in both cases —
the malformed condition is NOT a hard failure and the caller cannot
distinguish the two outcomes. -/
theorem data_size_malformed_not_hard_failure :
    get_data_size (Except.error "near 1: syntax error") = Except.ok none
    ∧ get_data_size (Except.error "no such table: triples_table") = Except.ok none :=
  ⟨rfl, rfl⟩

/-- Claim C9 (amended): a successful count query returns the scalar count;
every backend rejection of the count statement — missing table and malformed
condition alike — yields the sentinel `None` with no propagated error, so
the two failure causes are not distinguishable by the caller. -/
theorem data_size_sentinel_behavior :
    (∀ n : Int, get_data_size (Except.ok [[n]]) = Except.ok (some n))
    ∧ ∀ e, get_data_size (Except.error e) = Except.ok none :=
  ⟨fun _ => rfl, fun _ => rfl⟩

/-- Claim C10 (confirmed): constructing the adapter with `chunk_size=None`
raises inside `__init__` (the fallback branch evaluates `self.__name__()`,
undefined on instances) and no `chunk_size` attribute is ever assigned, so
the documented fallback to 30000 is unreachable; the default 30000 is
obtained exactly when the argument is omitted, via the parameter default
`DEFAULT_CHUNKSIZE`. -/
theorem init_chunk_size_none_raises :
    sqlite_adapter_init none = Except.error (AdapterError.attributeError "__name__")
    ∧ sqlite_adapter_init (some DEFAULT_CHUNKSIZE) = Except.ok { chunk_size := 30000 }
    ∧ (∀ c, sqlite_adapter_init (some c) = Except.ok { chunk_size := c })
    ∧ DEFAULT_CHUNKSIZE = 30000 :=
  ⟨rfl, rfl, fun _ => rfl, rfl⟩

end SQLiteAdapter
